import Mathlib

/-!
Verification of the trello-clone recommendation engine.

Shallow embedding of `backend/src/services/recommendationService.js`.
The repository carries two variants of the `RecommendationService` class in
that file:

* variant 1 exposes `suggestDueDate`, `suggestListMovement`, `suggestPriority`
  and a TF-IDF based `findRelatedCards`;
* variant 2 exposes `analyzeDueDate`, `analyzeListMovement`, `analyzePriority`
  and a token-overlap `findRelatedCards`, orchestrated by
  `generateRecommendations`.

Both are embedded below (variant 2's `findRelatedCards` is the one embedded
under that name; variant 1's TF-IDF version depends on the external `natural`
library and is not the subject of any claim).

Modelling conventions:
* JavaScript `Date` arithmetic is abstracted by `SuggDate`: the code only ever
  produces "end of the current day" (`setHours(23,59,59,999)`) or "now plus n
  days" (`setDate(getDate()+n)`), so a suggested date is one of those two
  shapes relative to the (irrelevant) current clock.
* JS floating point in `Math.round((c / m) * 100)` is modelled by exact
  rational arithmetic: for naturals `c ≤ m`, `Math.round(100*c/m)` (round half
  up) equals `(200*c + m) / (2*m)` in natural division; `0/0` is `NaN`,
  modelled as `none`, and `NaN > 30` is `false`.
* A card's `description` may be absent (`undefined` in JS); the template
  literal `` `${card.title} ${card.description}` `` renders an absent value as
  the literal string `"undefined"`, which `jsStr` reproduces.
* `tokenizer.tokenize` (the `natural` WordTokenizer) and `split(/\W+/)` both
  cut the text at maximal runs of non-word characters (`\w` = alphanumeric or
  underscore); the only difference, empty chunks at the ends, is erased by the
  length filters applied right after, so both are derived from `rawChunks`.
-/

/-- JS `toLowerCase()` (agreeing with it on ASCII, which is all the keyword
tables contain), as a character map. -/
def jsToLower (s : String) : String := String.mk (s.toList.map Char.toLower)

/-- Characters matched by `\w` in a JS regular expression. -/
def isWordChar (c : Char) : Bool := c.isAlphanum || c == '_'

/-- The chunks of `s` delimited by non-word characters, empty chunks kept
(the splitting skeleton shared by `tokenizer.tokenize` and `split(/\W+/)`). -/
def rawChunks (s : String) : List String :=
  (s.toList.splitOnP (fun c => !isWordChar c)).map String.mk

/-- JS `tokenizer.tokenize(content)`: word chunks, empties dropped. -/
def tokenize (s : String) : List String :=
  (rawChunks s).filter (fun w => w.length > 0)

/-- The list `cardText.split(/\W+/).filter(w => w.length > 3)` — the length-filtered
word list used by variant 2's `findRelatedCards`. -/
def simWords (s : String) : List String :=
  (rawChunks s).filter (fun w => w.length > 3)

/-- Substring containment `s.includes(pat)`, as in JS `String.includes`. -/
def strContains (s pat : String) : Bool :=
  (List.range (s.toList.length + 1)).any
    (fun i => (s.toList.drop i).take pat.toList.length == pat.toList)

/-- How a JS template literal renders a possibly-`undefined` string field:
an absent value becomes the literal text `"undefined"`. -/
def jsStr : Option String → String
  | some s => s
  | none => "undefined"

/-- A card as this engine reads it.  `listId` is the raw `card.list` object id
(variant 2 resolves it against the board's lists); `listTitle` is the title of
the populated `card.list` document used by variant 1 (absent when the `list`
field is unpopulated/falsy). -/
structure Card where
  id : Nat
  title : String
  description : Option String
  dueDate : Option Nat
  priority : String
  listId : Nat
  listTitle : Option String
deriving DecidableEq, Repr

/-- A board list, of which the engine uses only `_id` and `title`. -/
structure BoardList where
  id : Nat
  title : String
deriving DecidableEq, Repr

/-- The blob `` `${card.title} ${card.description}`.toLowerCase() `` — the lowercase
text blob every suggester analyzes (lines 63, 129, 196, 232, 329, 489, 495). -/
def cardContent (c : Card) : String :=
  jsToLower (c.title ++ " " ++ jsStr c.description)

/-- The shape of a suggested date: `new Date()` set to 23:59:59.999, or
`new Date()` advanced by `n` days. -/
inductive SuggDate where
  | endOfToday
  | plusDays (n : Nat)
deriving DecidableEq, Repr

/-- A `due_date` suggestion (constant `type`/`title` fields omitted). -/
structure DueDateSuggestion where
  description : String
  suggestedDate : SuggDate
  confidence : String
deriving DecidableEq, Repr

/-- A `list_movement` suggestion (constant fields omitted). -/
structure ListMovementSuggestion where
  description : String
  suggestedList : String
  confidence : String
deriving DecidableEq, Repr

/-- A `priority` suggestion (constant fields omitted). -/
structure PrioritySuggestion where
  description : String
  suggestedPriority : String
  confidence : String
deriving DecidableEq, Repr

/-! ## Variant 1 keyword tables (`suggestDueDate`, `suggestListMovement`,
`suggestPriority`) -/

def urgencyToday : List String := ["today", "now", "immediate", "asap", "immediately"]

def urgencyTomorrow : List String := ["tomorrow", "urgent", "critical"]

def urgencyThisWeek : List String := ["this week", "soon", "shortly", "quickly"]

def urgencyNextWeek : List String := ["next week", "upcoming", "later"]

def urgencyTwoWeeks : List String := ["two weeks", "couple weeks", "fortnight"]

def statusInProgress : List String :=
  ["started", "working", "began", "begun", "implementing", "developing", "in progress"]

def statusDone : List String :=
  ["done", "completed", "finished", "complete", "resolved", "fixed", "closed"]

def statusBlocked : List String :=
  ["blocked", "stuck", "issue", "problem", "waiting", "pending", "hold"]

def statusTesting : List String := ["testing", "test", "qa", "review", "checking"]

def priorityUrgent : List String := ["urgent", "critical", "asap", "immediately", "emergency"]

def priorityHigh : List String := ["important", "high", "priority", "crucial", "essential"]

def priorityLow : List String := ["minor", "low", "trivial", "nice to have", "optional"]

/-! ## Variant 2 keyword tables (static class fields) -/

def urgentKeywords : List String :=
  ["urgent", "asap", "critical", "emergency", "immediately", "high priority"]

def todoKeywords : List String := ["need to", "should", "must", "have to", "todo", "task"]

def inProgressKeywords : List String :=
  ["working on", "started", "in progress", "currently", "doing"]

def doneKeywords : List String := ["completed", "finished", "done", "resolved", "fixed"]

def dateKeywords : List String := ["today", "tomorrow", "next week", "deadline", "due", "by"]

/-! ## Variant 1 suggesters -/

/-- The `for (const token of tokens)` loop of `suggestDueDate` (lines 78–104):
at each token, test membership in the `today` then `tomorrow` lists, then test
the whole content for a `thisWeek` then `nextWeek` phrase, breaking with the
first hit.  Returns (date, reason, confidence). -/
def dueDateScan (content : String) : List String → Option (SuggDate × String × String)
  | [] => none
  | tok :: rest =>
    if urgencyToday.contains tok then
      some (SuggDate.endOfToday, "Detected urgent keyword: \"" ++ tok ++ "\"", "high")
    else if urgencyTomorrow.contains tok then
      some (SuggDate.plusDays 1, "Detected high priority keyword: \"" ++ tok ++ "\"", "high")
    else if urgencyThisWeek.any (fun kw => strContains content kw) then
      some (SuggDate.plusDays 3, "Detected \"this week\" timeframe", "medium")
    else if urgencyNextWeek.any (fun kw => strContains content kw) then
      some (SuggDate.plusDays 7, "Detected \"next week\" timeframe", "medium")
    else dueDateScan content rest

/-- Variant 1 `suggestDueDate` (lines 62–125): keyword scan, then the +5-day
default when nothing matched and no due date is set, then the emission gate
`if (suggestedDate && !card.dueDate)`. -/
def suggestDueDate (card : Card) : Option DueDateSuggestion :=
  let content := cardContent card
  let scanned := dueDateScan content (tokenize content)
  let final : Option (SuggDate × String × String) :=
    match scanned with
    | some r => some r
    | none =>
      if card.dueDate.isNone then
        some (SuggDate.plusDays 5, "Recommended default due date (5 days)", "low")
      else none
  match final with
  | some (d, reason, conf) =>
    if card.dueDate.isNone then
      some { description := reason, suggestedDate := d, confidence := conf }
    else none
  | none => none

/-- The token loop of `suggestListMovement` (lines 144–166).  Returns
(suggested list title, reason, confidence). -/
def listMovementScan (content : String) : List String → Option (String × String × String)
  | [] => none
  | tok :: rest =>
    if statusDone.contains tok then
      some ("Done", "Detected completion keyword: \"" ++ tok ++ "\"", "high")
    else if statusBlocked.contains tok then
      some ("Blocked", "Detected blocking keyword: \"" ++ tok ++ "\"", "high")
    else if statusInProgress.any (fun kw => strContains content kw) then
      some ("In Progress", "Detected work-in-progress indicators", "medium")
    else if statusTesting.contains tok then
      some ("Testing", "Detected testing keyword: \"" ++ tok ++ "\"", "medium")
    else listMovementScan content rest

/-- Variant 1 `suggestListMovement` (lines 128–180): the suggested list title
is one of four fixed strings; the board's lists are never consulted, only
`card.list.title !== suggestedList` gates the emission. -/
def suggestListMovement (card : Card) : Option ListMovementSuggestion :=
  let content := cardContent card
  match listMovementScan content (tokenize content) with
  | some (sl, reason, conf) =>
    match card.listTitle with
    | some lt =>
      if lt ≠ sl then some { description := reason, suggestedList := sl, confidence := conf }
      else none
    | none => none
  | none => none

/-- The token loop of `suggestPriority` (lines 245–262). -/
def priorityScan : List String → Option (String × String × String)
  | [] => none
  | tok :: rest =>
    if priorityUrgent.contains tok then
      some ("urgent", "Detected urgent keyword: \"" ++ tok ++ "\"", "high")
    else if priorityHigh.contains tok then
      some ("high", "Detected high priority keyword: \"" ++ tok ++ "\"", "medium")
    else if priorityLow.contains tok then
      some ("low", "Detected low priority keyword: \"" ++ tok ++ "\"", "medium")
    else priorityScan rest

/-- Variant 1 `suggestPriority` (lines 231–276). -/
def suggestPriority (card : Card) : Option PrioritySuggestion :=
  let content := cardContent card
  match priorityScan (tokenize content) with
  | some (p, reason, conf) =>
    if card.priority ≠ p then
      some { description := reason, suggestedPriority := p, confidence := conf }
    else none
  | none => none

/-! ## Variant 2 suggesters -/

/-- Variant 2 `analyzeDueDate` (lines 359–403). -/
def analyzeDueDate (text : String) (card : Card) : Option DueDateSuggestion :=
  if card.dueDate.isSome then none
  else
    let hasUrgent := urgentKeywords.any (fun k => strContains text k)
    let hasDateMention := dateKeywords.any (fun k => strContains text k)
    if hasUrgent then
      some { description := "Contains urgent keywords suggesting immediate action",
             suggestedDate := SuggDate.plusDays 1, confidence := "high" }
    else if hasDateMention then
      some { description := "Contains time-related keywords",
             suggestedDate := SuggDate.plusDays 3, confidence := "medium" }
    else if text.length > 100 then
      some { description := "Complex task detected - allocating more time",
             suggestedDate := SuggDate.plusDays 7, confidence := "low" }
    else none

/-- The `done` block of `analyzeListMovement` (lines 415–423): when the text
carries a completion keyword and the current list is not titled "done", look
up a list whose title contains "done" and make it the suggested state. -/
def doneBlock (text : String) (currentList : BoardList) (lists : List BoardList) :
    Option (String × String × String) :=
  if doneKeywords.any (fun k => strContains text k)
      && !(jsToLower currentList.title == "done") then
    match lists.find? (fun l => strContains (jsToLower l.title) "done") with
    | some doneList =>
      some (doneList.title, "high", "Card description contains completion keywords")
    | none => none
  else none

/-- The `in progress` block of `analyzeListMovement` (lines 426–434).  It runs
*after* the `done` block and is not guarded by an `else`: when its condition
fires and a "progress" list exists it overwrites the previous state `prev`,
otherwise `prev` is kept. -/
def progressBlock (text : String) (currentList : BoardList) (lists : List BoardList)
    (prev : Option (String × String × String)) : Option (String × String × String) :=
  if inProgressKeywords.any (fun k => strContains text k)
      && !(strContains (jsToLower currentList.title) "progress") then
    match lists.find? (fun l => strContains (jsToLower l.title) "progress") with
    | some progressList =>
      some (progressList.title, "medium", "Card description indicates work has begun")
    | none => prev
  else prev

/-- Variant 2 `analyzeListMovement` (lines 406–447): resolve the current list,
run the `done` block then the `in progress` block over the mutable
(suggestedList, confidence, reason) state, and emit the final state if any. -/
def analyzeListMovement (text : String) (card : Card) (lists : List BoardList) :
    Option ListMovementSuggestion :=
  match lists.find? (fun l => l.id == card.listId) with
  | none => none
  | some currentList =>
    match progressBlock text currentList lists (doneBlock text currentList lists) with
    | some (sl, conf, reason) =>
      some { description := reason, suggestedList := sl, confidence := conf }
    | none => none

/-- Variant 2 `analyzePriority` (lines 450–485).  Note it has no rule that
ever suggests `low`. -/
def analyzePriority (text : String) (card : Card) : Option PrioritySuggestion :=
  if card.priority == "urgent" then none
  else
    let urgentCount := (urgentKeywords.filter (fun k => strContains text k)).length
    let r : Option (String × String × String) :=
      if urgentCount ≥ 2 then
        some ("urgent", "high", "Multiple urgent indicators found in text")
      else if urgentCount == 1 then
        some ("high", "medium", "Urgent keyword detected")
      else if strContains text "important" || strContains text "priority" then
        some ("high", "medium", "Priority keyword mentioned")
      else none
    match r with
    | some (p, conf, reason) =>
      if p ≠ card.priority then
        some { description := reason, suggestedPriority := p, confidence := conf }
      else none
    | none => none

/-! ## Variant 2 related-card finder -/

/-- One entry of the `relatedCards` array (line 503). -/
structure RelatedItem where
  title : String
  similarity : Nat
  cardId : Nat
deriving DecidableEq, Repr

/-- The score `Math.round((commonWords.length / Math.max(words.length, otherWords.length)) * 100)`
(lines 499–500), over exact rationals; `none` is the `NaN` produced by `0/0`.
`commonWords = words.filter(word => otherWords.includes(word))` keeps
duplicates of `words`. -/
def similarity (words otherWords : List String) : Option Nat :=
  let c := (words.filter (fun w => otherWords.contains w)).length
  let m := max words.length otherWords.length
  if m = 0 then none else some ((200 * c + m) / (2 * m))

/-- The sibling loop of `findRelatedCards` (lines 494–509): the siblings whose
similarity passes the strict `> 30` test, in board order, with their scores.
A `NaN` score (`none`) fails the test, as in JS. -/
def relatedCandidates (words : List String) (boardCards : List Card) : List RelatedItem :=
  boardCards.filterMap (fun oc =>
    match similarity words (simWords (cardContent oc)) with
    | some s => if 30 < s then some ⟨oc.title, s, oc.id⟩ else none
    | none => none)

/-- A `related_cards` suggestion (constant fields omitted). -/
structure RelatedCardsSuggestion where
  description : String
  cards : List RelatedItem
  confidence : String
deriving DecidableEq, Repr

/-- The descending-similarity comparator
`relatedCards.sort((a, b) => b.similarity - a.similarity)` (line 513). -/
def simDesc (a b : RelatedItem) : Bool := b.similarity ≤ a.similarity

/-- Variant 2 `findRelatedCards` (lines 488–526): score every sibling, keep
those above 30, sort descending by similarity, take the top 3; confidence is
`high` when the kept top has at least 2 entries. -/
def findRelatedCards (card : Card) (boardCards : List Card) :
    Option RelatedCardsSuggestion :=
  let words := simWords (cardContent card)
  let related := relatedCandidates words boardCards
  if related.length > 0 then
    let sorted := related.mergeSort simDesc
    let top := sorted.take 3
    some { description := "These cards have similar content and might be grouped together",
           cards := top,
           confidence := if top.length ≥ 2 then "high" else "medium" }
  else none

/-- The similarity computation between two card texts, with the first text in
the subject role (the role order fixes which list is `words` and which is
`otherWords` in lines 490–500). -/
def textSimilarity (subjectText siblingText : String) : Option Nat :=
  similarity (simWords (jsToLower subjectText)) (simWords (jsToLower siblingText))

/-! ## Theorems -/

/-- Claim C1: for every card whose `dueDate` is already set, both due-date
suggesters return no suggestion, whatever the card's text: variant 2
(`analyzeDueDate`) returns `null` up front, and variant 1 (`suggestDueDate`)
is stopped by its `if (suggestedDate && !card.dueDate)` emission gate. -/
theorem dueDate_already_set_no_suggestion (card : Card) (t : Nat)
    (h : card.dueDate = some t) (text : String) :
    analyzeDueDate text card = none ∧ suggestDueDate card = none := by
  constructor
  · simp [analyzeDueDate, h]
  · simp only [suggestDueDate, h]
    cases dueDateScan (cardContent card) (tokenize (cardContent card)) with
    | none => simp
    | some r => simp

/-- Witness for C1 at a concrete card. -/
theorem dueDate_already_set_no_suggestion_witness :
    analyzeDueDate "finish this today" ⟨0, "finish this today", some "", some 1700000000, "medium", 0, none⟩ = none
  ∧ suggestDueDate ⟨0, "finish this today", some "", some 1700000000, "medium", 0, none⟩ = none :=
  dueDate_already_set_no_suggestion _ 1700000000 rfl _

/-- Claim C2, counterexample: "urgent" is one of the claimed urgency keywords,
yet on a card titled just "urgent" with no due date *both* due-date suggesters
return a "+1 day" date, not the end of the current calendar day: in variant 1
"urgent" sits in the `tomorrow` keyword list, and in variant 2 the urgent rule
itself adds one day, with a fixed reason that names no keyword. -/
theorem urgent_keyword_not_end_of_day :
    suggestDueDate ⟨0, "urgent", some "", none, "medium", 0, none⟩
      = some ⟨"Detected high priority keyword: \"urgent\"", SuggDate.plusDays 1, "high"⟩
  ∧ analyzeDueDate (cardContent ⟨0, "urgent", some "", none, "medium", 0, none⟩)
      ⟨0, "urgent", some "", none, "medium", 0, none⟩
      = some ⟨"Contains urgent keywords suggesting immediate action", SuggDate.plusDays 1, "high"⟩
  ∧ SuggDate.plusDays 1 ≠ SuggDate.endOfToday := by
  refine ⟨by decide, by decide, by decide⟩

/-- The `today` branch of variant 1's token scan: when no token is a
`tomorrow`-category keyword and the content carries no `thisWeek` or
`nextWeek` phrase (the phrase tests fire at the very first loop step when they
hold, since they do not depend on the token), the scan stops at the first
`today`-category token with an end-of-day result naming it. -/
theorem dueDateScan_today_branch (content : String) (toks : List String)
    (hnotom : ∀ tok ∈ toks, urgencyTomorrow.contains tok = false)
    (hw3 : urgencyThisWeek.any (fun kw => strContains content kw) = false)
    (hw4 : urgencyNextWeek.any (fun kw => strContains content kw) = false)
    (htoday : ∃ tok ∈ toks, urgencyToday.contains tok = true) :
    ∃ tok, urgencyToday.contains tok = true ∧
      dueDateScan content toks
        = some (SuggDate.endOfToday, "Detected urgent keyword: \"" ++ tok ++ "\"", "high") := by
  have hw3p : ¬ ∃ x ∈ urgencyThisWeek, strContains content x = true := by simpa using hw3
  have hw4p : ¬ ∃ x ∈ urgencyNextWeek, strContains content x = true := by simpa using hw4
  induction toks with
  | nil => rcases htoday with ⟨t, ht, _⟩; cases ht
  | cons t rest ih =>
    have htom : t ∉ urgencyTomorrow := by
      simpa using hnotom t (List.mem_cons_self t rest)
    by_cases hl : urgencyToday.contains t = true
    · have hl2 : t ∈ urgencyToday := by simpa using hl
      exact ⟨t, hl, by simp [dueDateScan, hl2]⟩
    · have hl2 : t ∉ urgencyToday := by simpa using hl
      rcases htoday with ⟨t2, ht2, hlt2⟩
      rcases List.mem_cons.mp ht2 with h | hmem
      · exact absurd (h ▸ hlt2) hl
      · obtain ⟨tok, htk, hr⟩ :=
          ih (fun x hx => hnotom x (List.mem_cons_of_mem _ hx)) ⟨t2, hmem, hlt2⟩
        exact ⟨tok, htk, by simp [dueDateScan, hl2, htom, hw3p, hw4p, hr]⟩

/-- Claim C2, amended: in variant 1's `suggestDueDate`, when the card has no
due date, some token of its text belongs to the `today` keyword list (`today`,
`now`, `immediate`, `asap`, `immediately`), no token is a `tomorrow`-category
keyword (`tomorrow`, `urgent`, `critical`) and the content carries no
`thisWeek`/`nextWeek` phrase, the suggestion is the end of the current
calendar day with confidence `high` and a reason naming the first matched
`today` token.  (Of the claimed keyword set, `urgent`/`critical` instead give
+1 day, `emergency` matches no date rule, and an earlier tomorrow-token or a
week phrase preempts the today rule.) -/
theorem today_keyword_end_of_day (card : Card)
    (hdd : card.dueDate = none)
    (hnotom : ∀ tok ∈ tokenize (cardContent card), urgencyTomorrow.contains tok = false)
    (hw3 : urgencyThisWeek.any (fun kw => strContains (cardContent card) kw) = false)
    (hw4 : urgencyNextWeek.any (fun kw => strContains (cardContent card) kw) = false)
    (htoday : ∃ tok ∈ tokenize (cardContent card), urgencyToday.contains tok = true) :
    ∃ tok, urgencyToday.contains tok = true ∧
      suggestDueDate card
        = some ⟨"Detected urgent keyword: \"" ++ tok ++ "\"", SuggDate.endOfToday, "high"⟩ := by
  obtain ⟨tok, htk, hr⟩ := dueDateScan_today_branch _ _ hnotom hw3 hw4 htoday
  exact ⟨tok, htk, by simp [suggestDueDate, hr, hdd]⟩

/-- Witness for the amended C2 at a concrete card titled "do it today", whose
`today` keyword is the third token. -/
theorem today_keyword_end_of_day_witness :
    ∃ tok, urgencyToday.contains tok = true ∧
      suggestDueDate ⟨1, "do it today", some "", none, "medium", 0, none⟩
        = some ⟨"Detected urgent keyword: \"" ++ tok ++ "\"", SuggDate.endOfToday, "high"⟩ :=
  today_keyword_end_of_day _ rfl (by decide) (by decide) (by decide)
    ⟨"today", by decide, by decide⟩

/-- Claim C7, counterexample: a card titled "hi" with no due date: the text is
far shorter than 100 characters and matches no date keyword, yet variant 2's
`analyzeDueDate` returns *no* suggestion instead of the claimed +5-day
default. -/
theorem analyzeDueDate_no_default_suggestion :
    analyzeDueDate (cardContent ⟨2, "hi", some "", none, "medium", 0, none⟩)
      ⟨2, "hi", some "", none, "medium", 0, none⟩ = none
  ∧ (cardContent ⟨2, "hi", some "", none, "medium", 0, none⟩).length ≤ 100 := by
  refine ⟨by decide, by decide⟩

/-- Claim C7, amended: variant 1's `suggestDueDate` never returns "no
suggestion" for a card with no due date, and when its keyword scan matches
nothing the result is the +5-day default with confidence `low` and reason
"Recommended default due date (5 days)".  Variant 2's `analyzeDueDate` (the
claimed subject) instead returns no suggestion in that situation, as the
counterexample shows. -/
theorem suggestDueDate_default_when_unset (card : Card) (h : card.dueDate = none) :
    (suggestDueDate card).isSome = true
  ∧ (dueDateScan (cardContent card) (tokenize (cardContent card)) = none →
      suggestDueDate card
        = some ⟨"Recommended default due date (5 days)", SuggDate.plusDays 5, "low"⟩) := by
  constructor
  · simp only [suggestDueDate, h]
    cases hs : dueDateScan (cardContent card) (tokenize (cardContent card)) with
    | none => simp
    | some r => obtain ⟨d, reason, conf⟩ := r; simp
  · intro hs
    simp [suggestDueDate, hs, h]

/-- Witness for the amended C7 at a concrete keyword-free card. -/
theorem suggestDueDate_default_when_unset_witness :
    (suggestDueDate ⟨2, "tidy desk", some "", none, "medium", 0, none⟩).isSome = true
  ∧ (dueDateScan (cardContent ⟨2, "tidy desk", some "", none, "medium", 0, none⟩)
        (tokenize (cardContent ⟨2, "tidy desk", some "", none, "medium", 0, none⟩)) = none →
      suggestDueDate ⟨2, "tidy desk", some "", none, "medium", 0, none⟩
        = some ⟨"Recommended default due date (5 days)", SuggDate.plusDays 5, "low"⟩) :=
  suggestDueDate_default_when_unset _ rfl

/-- Claim C8, counterexample: a card titled "minor cleanup" with priority
`medium`: "minor" is a `priority.low` keyword and no urgent/important/priority
text is present, yet variant 2's `analyzePriority` — which has no `low` rule
at all — returns no suggestion instead of the claimed `low`/`medium` one. -/
theorem analyzePriority_ignores_low_keywords :
    analyzePriority (cardContent ⟨3, "minor cleanup", some "", none, "medium", 0, none⟩)
      ⟨3, "minor cleanup", some "", none, "medium", 0, none⟩ = none
  ∧ strContains (cardContent ⟨3, "minor cleanup", some "", none, "medium", 0, none⟩) "minor"
      = true := by
  refine ⟨by decide, by decide⟩

/-- The `priority.low` branch of variant 1's token scan: when no token is an
urgent or high keyword and some token is a low keyword, the scan stops at the
first such token with a `low`/`medium` result. -/
theorem priorityScan_low_branch (toks : List String)
    (hnone : ∀ tok ∈ toks,
      priorityUrgent.contains tok = false ∧ priorityHigh.contains tok = false)
    (hlow : ∃ tok ∈ toks, priorityLow.contains tok = true) :
    ∃ reason, priorityScan toks = some ("low", reason, "medium") := by
  induction toks with
  | nil => rcases hlow with ⟨t, ht, _⟩; cases ht
  | cons t rest ih =>
    obtain ⟨hu, hh⟩ := hnone t (List.mem_cons_self t rest)
    have hu2 : t ∉ priorityUrgent := by simpa using hu
    have hh2 : t ∉ priorityHigh := by simpa using hh
    by_cases hl : priorityLow.contains t = true
    · have hl2 : t ∈ priorityLow := by simpa using hl
      exact ⟨"Detected low priority keyword: \"" ++ t ++ "\"",
        by simp [priorityScan, hu2, hh2, hl2]⟩
    · have hl2 : t ∉ priorityLow := by simpa using hl
      rcases hlow with ⟨t2, ht2, hlt2⟩
      rcases List.mem_cons.mp ht2 with h | hmem
      · exact absurd (h ▸ hlt2) hl
      · obtain ⟨r, hr⟩ := ih (fun x hx => hnone x (List.mem_cons_of_mem _ hx)) ⟨t2, hmem, hlt2⟩
        exact ⟨r, by simp [priorityScan, hu2, hh2, hl2, hr]⟩

/-- Claim C8, amended: the `low` rule lives only in variant 1's
`suggestPriority`: for a card whose priority is not already `low`, if no token
of its text is a variant-1 urgent or high keyword and some token is a
`priority.low` keyword, the suggestion is priority `low` with confidence
`medium`.  Variant 2's `analyzePriority` has no such rule and returns no
suggestion on the same input, as the counterexample shows. -/
theorem suggestPriority_low_rule (card : Card)
    (hp : card.priority ≠ "low")
    (hnone : ∀ tok ∈ tokenize (cardContent card),
      priorityUrgent.contains tok = false ∧ priorityHigh.contains tok = false)
    (hlow : ∃ tok ∈ tokenize (cardContent card), priorityLow.contains tok = true) :
    ∃ reason, suggestPriority card = some ⟨reason, "low", "medium"⟩ := by
  obtain ⟨r, hr⟩ := priorityScan_low_branch _ hnone hlow
  exact ⟨r, by simp [suggestPriority, hr, hp]⟩

/-- Witness for the amended C8 at a concrete card. -/
theorem suggestPriority_low_rule_witness :
    ∃ reason, suggestPriority ⟨3, "minor cleanup", some "", none, "medium", 0, none⟩
      = some ⟨reason, "low", "medium"⟩ :=
  suggestPriority_low_rule _ (by decide) (by decide) ⟨"minor", by decide, by decide⟩

/-- Claim C5, counterexample: variant 1's `suggestListMovement` never consults
the board's lists: on a card titled "done" sitting in "To Do" it suggests the
hard-coded title "Done" even though the supplied board list set
`["To Do", "Doing"]` has no such list. -/
theorem suggestListMovement_fabricates_title :
    suggestListMovement ⟨5, "done", some "", none, "medium", 0, some "To Do"⟩
      = some ⟨"Detected completion keyword: \"done\"", "Done", "high"⟩
  ∧ "Done" ∉ ([⟨0, "To Do"⟩, ⟨1, "Doing"⟩] : List BoardList).map BoardList.title := by
  refine ⟨by decide, by decide⟩

/-- Any title emitted by the `done` block is the title of a board list. -/
theorem doneBlock_title_mem (text : String) (cl : BoardList) (lists : List BoardList)
    (t c r : String) (h : doneBlock text cl lists = some (t, c, r)) :
    t ∈ lists.map BoardList.title := by
  unfold doneBlock at h
  split at h
  · split at h
    · rename_i dl hdl
      obtain ⟨rfl, -, -⟩ : t = dl.title ∧ c = "high" ∧
          r = "Card description contains completion keywords" := by
        simpa using h.symm
      exact List.mem_map_of_mem _ (List.mem_of_find?_eq_some hdl)
    · cases h
  · cases h

/-- Any title emitted by the `in progress` block is the title of a board list,
provided the incoming state satisfies the same property. -/
theorem progressBlock_title_mem (text : String) (cl : BoardList) (lists : List BoardList)
    (prev : Option (String × String × String))
    (hprev : ∀ t c r, prev = some (t, c, r) → t ∈ lists.map BoardList.title)
    (t c r : String) (h : progressBlock text cl lists prev = some (t, c, r)) :
    t ∈ lists.map BoardList.title := by
  unfold progressBlock at h
  split at h
  · split at h
    · rename_i pl hpl
      obtain ⟨rfl, -, -⟩ : t = pl.title ∧ c = "medium" ∧
          r = "Card description indicates work has begun" := by
        simpa using h.symm
      exact List.mem_map_of_mem _ (List.mem_of_find?_eq_some hpl)
    · exact hprev t c r h
  · exact hprev t c r h

/-- Claim C5, amended: variant 2's `analyzeListMovement` never fabricates a
list title: whenever it returns a suggestion, the suggested title is the title
of a list in the supplied list set.  Variant 1's `suggestListMovement` does
not take the board's lists at all and can suggest an absent title, as the
counterexample shows. -/
theorem analyzeListMovement_title_from_lists (text : String) (card : Card)
    (lists : List BoardList) (s : ListMovementSuggestion)
    (h : analyzeListMovement text card lists = some s) :
    s.suggestedList ∈ lists.map BoardList.title := by
  unfold analyzeListMovement at h
  cases hcl : lists.find? (fun l => l.id == card.listId) with
  | none => rw [hcl] at h; cases h
  | some cl =>
    rw [hcl] at h
    dsimp only at h
    cases hst : progressBlock text cl lists (doneBlock text cl lists) with
    | none => rw [hst] at h; cases h
    | some st =>
      obtain ⟨t, c, r⟩ := st
      rw [hst] at h
      cases h
      exact progressBlock_title_mem text cl lists _
        (fun a b d hd => doneBlock_title_mem text cl lists a b d hd) t c r hst

/-- Witness for the amended C5 at a concrete board. -/
theorem analyzeListMovement_title_from_lists_witness :
    "Done" ∈ ([⟨0, "Todo"⟩, ⟨1, "Done"⟩] : List BoardList).map BoardList.title :=
  analyzeListMovement_title_from_lists
    (cardContent ⟨6, "finished it", some "", none, "medium", 0, none⟩)
    ⟨6, "finished it", some "", none, "medium", 0, none⟩
    [⟨0, "Todo"⟩, ⟨1, "Done"⟩]
    ⟨"Card description contains completion keywords", "Done", "high"⟩
    (by decide)

/-- Claim C6: evaluation of variant 2's `analyzeListMovement` at a card text
containing both a `status.done` keyword ("finished") and a `status.inProgress`
keyword ("started"), on a board with a "Done" list and an "In Progress" list,
the card in neither: because the `in progress` block is not guarded by an
`else`, it overwrites the `done` block's state, and the suggestion targets
"In Progress" with confidence `medium` — not "Done" with `high` as the stated
priority order requires. -/
theorem analyzeListMovement_inProgress_overwrites_done :
    strContains (cardContent ⟨7, "started and finished", some "", none, "medium", 0, none⟩)
      "finished" = true
  ∧ strContains (cardContent ⟨7, "started and finished", some "", none, "medium", 0, none⟩)
      "started" = true
  ∧ analyzeListMovement (cardContent ⟨7, "started and finished", some "", none, "medium", 0, none⟩)
      ⟨7, "started and finished", some "", none, "medium", 0, none⟩
      [⟨0, "Todo"⟩, ⟨1, "In Progress"⟩, ⟨2, "Done"⟩]
      = some ⟨"Card description indicates work has begun", "In Progress", "medium"⟩ := by
  refine ⟨by decide, by decide, by decide⟩

/-- Claim C9, counterexample: on a card titled "Alpha" with no description,
the analyzed text blob is *not* the lowercase title: the JS template literal
renders the absent field as the text "undefined", so the blob is
"alpha undefined" and the similarity token list gains an extra token
"undefined" contributed by the missing description. -/
theorem missing_description_adds_content :
    cardContent ⟨8, "Alpha", none, none, "medium", 0, none⟩ = "alpha undefined"
  ∧ cardContent ⟨8, "Alpha", none, none, "medium", 0, none⟩ ≠ jsToLower "Alpha"
  ∧ simWords (cardContent ⟨8, "Alpha", none, none, "medium", 0, none⟩)
      = ["alpha", "undefined"]
  ∧ "undefined" ∈ simWords (cardContent ⟨8, "Alpha", none, none, "medium", 0, none⟩) := by
  refine ⟨by decide, by decide, by decide, by decide⟩

/-- Claim C9, amended: no suggester raises on a missing optional field — every
embedded suggester is a total function — but absence of `description` is not
treated as the empty string: the text blob of a description-less card is the
lowercase of the title followed by the literal word " undefined", exactly as
if the description had been the string "undefined". -/
theorem missing_description_is_undefined_string (card : Card)
    (h : card.description = none) :
    cardContent card = jsToLower (card.title ++ " undefined") := by
  have hs : (" " : String) ++ "undefined" = " undefined" := rfl
  simp [cardContent, jsStr, h, String.append_assoc, hs]

/-- Witness for the amended C9 at a concrete card. -/
theorem missing_description_is_undefined_string_witness :
    cardContent ⟨9, "Beta", none, none, "medium", 0, none⟩
      = jsToLower ("Beta" ++ " undefined") :=
  missing_description_is_undefined_string _ rfl

/-- Claim C10: when the subject card's length-filtered token list is empty,
`findRelatedCards` is total and returns no suggestion: every sibling
comparison has an empty intersection, so its score is either `0` (when the
sibling has tokens) or the `NaN` of `0/0` (when it has none, `similarity`'s
`none`), and both fail the strict `> 30` threshold. -/
theorem findRelatedCards_empty_subject_tokens (card : Card) (boardCards : List Card)
    (h : simWords (cardContent card) = []) :
    findRelatedCards card boardCards = none ∧ similarity [] [] = none := by
  refine ⟨?_, by decide⟩
  have key : ∀ oc : Card,
      (match similarity [] (simWords (cardContent oc)) with
       | some s => if 30 < s then some (⟨oc.title, s, oc.id⟩ : RelatedItem) else none
       | none => none) = none := by
    intro oc
    by_cases h0 : (simWords (cardContent oc)).length = 0
    · simp [similarity, h0]
    · have hpos : 0 < (simWords (cardContent oc)).length := Nat.pos_of_ne_zero h0
      have hdiv : (simWords (cardContent oc)).length
          / (2 * (simWords (cardContent oc)).length) = 0 :=
        Nat.div_eq_of_lt (by omega)
      simp [similarity, h0, hdiv]
  have hcand : relatedCandidates [] boardCards = [] := by
    rw [relatedCandidates, List.filterMap_eq_nil_iff]
    intro oc _
    exact key oc
  simp only [findRelatedCards, h, hcand]
  simp

/-- Witness for C10 at a concrete card whose words are all 3 characters or
shorter. -/
theorem findRelatedCards_empty_subject_tokens_witness :
    findRelatedCards ⟨10, "a bb c", some "dd e", none, "medium", 0, none⟩
      [⟨11, "database deployment", some "", none, "medium", 0, none⟩] = none
  ∧ similarity [] [] = none :=
  findRelatedCards_empty_subject_tokens _ _ (by decide)

/-- Claim C3, counterexample: the similarity measure is computed over token
*lists*, not sets: `commonWords = words.filter(w => otherWords.includes(w))`
counts every duplicate of the subject's tokens.  With subject text four times
"database" against sibling text "database testing" the score is 100, but with
the roles swapped it is 25. -/
theorem textSimilarity_not_symmetric :
    textSimilarity "database database database database" "database testing" = some 100
  ∧ textSimilarity "database testing" "database database database database" = some 25
  ∧ (100 : Nat) ≠ 25 := by
  refine ⟨by decide, by decide, by decide⟩

/-- Counting the common tokens is symmetric once both token lists are
duplicate-free: either count is the cardinality of the (finite-set)
intersection. -/
theorem length_filter_contains_comm (l1 l2 : List String)
    (h1 : l1.Nodup) (h2 : l2.Nodup) :
    (l1.filter (fun w => l2.contains w)).length
      = (l2.filter (fun w => l1.contains w)).length := by
  have e : ∀ a b : List String,
      (a.filter (fun w => b.contains w)) = a.filter (fun w => decide (w ∈ b)) := by
    intro a b
    apply List.filter_congr
    intro w _
    by_cases h : w ∈ b <;> simp [h]
  have inter : ∀ a b : List String, a.Nodup →
      (a.filter (fun w => decide (w ∈ b))).length = (a.toFinset ∩ b.toFinset).card := by
    intro a b ha
    rw [← List.toFinset_card_of_nodup (ha.filter _), List.toFinset_filter,
      ← Finset.filter_mem_eq_inter]
    exact congrArg Finset.card (Finset.filter_congr (fun x _ => by simp))
  rw [e l1 l2, e l2 l1, inter l1 l2 h1, inter l2 l1 h2, Finset.inter_comm]

/-- Claim C3, amended: the 0–100 similarity percentage is symmetric in the two
card texts *provided* each text's length-filtered token list has no duplicated
token; the counterexample shows that with duplicated tokens (which the code's
list-based `filter` counts) the measure is asymmetric. -/
theorem textSimilarity_symmetric_of_nodup (a b : String)
    (ha : (simWords (jsToLower a)).Nodup) (hb : (simWords (jsToLower b)).Nodup) :
    textSimilarity a b = textSimilarity b a := by
  simp only [textSimilarity, similarity]
  rw [length_filter_contains_comm _ _ ha hb, Nat.max_comm]

/-- Witness for the amended C3 at two concrete duplicate-free texts. -/
theorem textSimilarity_symmetric_of_nodup_witness :
    textSimilarity "database testing" "database deploy"
      = textSimilarity "database deploy" "database testing" :=
  textSimilarity_symmetric_of_nodup _ _ (by decide) (by decide)

/-- Every entry of the candidate list appears with a similarity score strictly
above 30 — the `> 30` test is what admitted it. -/
theorem mem_relatedCandidates_gt30 (words : List String) (boardCards : List Card)
    (it : RelatedItem) (h : it ∈ relatedCandidates words boardCards) :
    30 < it.similarity := by
  rw [relatedCandidates, List.mem_filterMap] at h
  obtain ⟨oc, -, hf⟩ := h
  cases hs : similarity words (simWords (cardContent oc)) with
  | none => rw [hs] at hf; cases hf
  | some v =>
    rw [hs] at hf
    dsimp only at hf
    by_cases h30 : 30 < v
    · rw [if_pos h30] at hf
      cases hf
      exact h30
    · rw [if_neg h30] at hf
      cases hf

/-- Claim C4: whenever `findRelatedCards` emits a suggestion: it carries at most
3 items, every item's similarity is at least 30 (indeed above it), the items
are ordered by descending similarity, the confidence is `high` exactly when at
least 2 siblings passed the 30% threshold and `medium` otherwise, and at least
one sibling passed the threshold (equivalently, a board on which no sibling
passes yields no suggestion). -/
theorem findRelatedCards_invariants (card : Card) (boardCards : List Card)
    (s : RelatedCardsSuggestion)
    (h : findRelatedCards card boardCards = some s) :
    s.cards.length ≤ 3
  ∧ (∀ it ∈ s.cards, 30 ≤ it.similarity)
  ∧ s.cards.Pairwise (fun a b => b.similarity ≤ a.similarity)
  ∧ s.confidence =
      (if 2 ≤ (relatedCandidates (simWords (cardContent card)) boardCards).length
       then "high" else "medium")
  ∧ relatedCandidates (simWords (cardContent card)) boardCards ≠ [] := by
  simp only [findRelatedCards] at h
  set related := relatedCandidates (simWords (cardContent card)) boardCards with hrel
  by_cases hlen : related.length > 0
  · rw [if_pos hlen] at h
    cases h
    have hperm := List.mergeSort_perm related simDesc
    refine ⟨?_, ?_, ?_, ?_, ?_⟩
    · rw [List.length_take]
      exact Nat.min_le_left _ _
    · intro it hit
      have hmem : it ∈ related :=
        hperm.mem_iff.mp (List.mem_of_mem_take hit)
      exact Nat.le_of_lt (mem_relatedCandidates_gt30 _ _ _ hmem)
    · have htrans : ∀ a b c : RelatedItem,
          simDesc a b = true → simDesc b c = true → simDesc a c = true := by
        intro a b c hab hbc
        simp only [simDesc, decide_eq_true_eq] at *
        omega
      have htotal : ∀ a b : RelatedItem, (simDesc a b || simDesc b a) = true := by
        intro a b
        simp only [simDesc, Bool.or_eq_true, decide_eq_true_eq]
        omega
      have hsorted := List.sorted_mergeSort htrans htotal related
      have hpw : (related.mergeSort simDesc).Pairwise
          (fun a b : RelatedItem => b.similarity ≤ a.similarity) := by
        refine hsorted.imp ?_
        intro a b hab
        simpa [simDesc] using hab
      exact hpw.sublist (List.take_sublist 3 _)
    · rw [List.length_take, hperm.length_eq]
      by_cases hc : 2 ≤ related.length
      · have h2 : 2 ≤ min 3 related.length := by omega
        simp [hc, h2]
      · have h2 : ¬ 2 ≤ min 3 related.length := by omega
        simp [hc, h2]
    · intro hnil
      rw [hnil] at hlen
      simp at hlen
  · rw [if_neg hlen] at h
    cases h

/-- Witness for C4 at a concrete one-sibling board. -/
theorem findRelatedCards_invariants_witness :
    ([⟨"database deployment", 50, 13⟩] : List RelatedItem).length ≤ 3
  ∧ (∀ it ∈ ([⟨"database deployment", 50, 13⟩] : List RelatedItem), 30 ≤ it.similarity)
  ∧ ([⟨"database deployment", 50, 13⟩] : List RelatedItem).Pairwise
      (fun a b => b.similarity ≤ a.similarity)
  ∧ ("medium" : String) =
      (if 2 ≤ (relatedCandidates
          (simWords (cardContent ⟨12, "database testing", some "", none, "medium", 0, none⟩))
          [⟨13, "database deployment", some "", none, "medium", 0, none⟩]).length
       then "high" else "medium")
  ∧ relatedCandidates
      (simWords (cardContent ⟨12, "database testing", some "", none, "medium", 0, none⟩))
      [⟨13, "database deployment", some "", none, "medium", 0, none⟩] ≠ [] :=
  findRelatedCards_invariants
    ⟨12, "database testing", some "", none, "medium", 0, none⟩
    [⟨13, "database deployment", some "", none, "medium", 0, none⟩]
    ⟨"These cards have similar content and might be grouped together",
      [⟨"database deployment", 50, 13⟩], "medium"⟩
    (by
      have hc : relatedCandidates
          (simWords (cardContent ⟨12, "database testing", some "", none, "medium", 0, none⟩))
          [⟨13, "database deployment", some "", none, "medium", 0, none⟩]
          = [⟨"database deployment", 50, 13⟩] := by decide
      simp [findRelatedCards, hc, List.mergeSort_singleton])
